/-
Verification of the library-organization and screenshot scripts.

Shallow embedding of `generate_organization.py` and
`frontend/scripts/selenium-screenshot.py`.  Python strings are Lean
`String`s, the page count is `Option Int` (None or an int), book widths
are rationals, and the nested dictionaries built by
`calculate_space_usage` are association lists in insertion order.
-/
import Mathlib

set_option maxRecDepth 4000

/-! ## Shelf configuration (SHELF_DIMENSIONS) -/

/-- The six shelf identifiers, in the insertion order of `SHELF_DIMENSIONS`. -/
inductive ShelfId
  | office_a | office_b | dining | hallway | crate_h | crate_v
deriving DecidableEq, Repr

/-- Keys of `SHELF_DIMENSIONS` in dict insertion order. -/
def allShelves : List ShelfId :=
  [.office_a, .office_b, .dining, .hallway, .crate_h, .crate_v]

/-- Python `SHELF_DIMENSIONS[s]['rows']`. -/
def shelfRows : ShelfId → Nat
  | .office_a => 5
  | .office_b => 4
  | .dining => 3
  | .hallway => 2
  | .crate_h => 1
  | .crate_v => 1

/-- Python `SHELF_DIMENSIONS[s]['width']` (inches). -/
def shelfWidth : ShelfId → Nat
  | .office_a => 32
  | .office_b => 32
  | .dining => 24
  | .hallway => 16
  | .crate_h => 32
  | .crate_v => 12

/-- Python `SHELF_DIMENSIONS[s]['depth']` (inches). -/
def shelfDepth : ShelfId → Nat
  | .office_a => 26
  | .office_b => 26
  | .dining => 24
  | .hallway => 16
  | .crate_h => 12
  | .crate_v => 32

/-! ## Python substring containment (`needle in haystack`) -/

/-- Here `startsWithList needle hay` means: `needle` is an initial segment of `hay`. -/
def startsWithList : List Char → List Char → Bool
  | [], _ => true
  | _ :: _, [] => false
  | a :: as, b :: bs => a == b && startsWithList as bs

/-- Here `containsList needle hay` means: `needle` occurs contiguously inside `hay`. -/
def containsList (needle : List Char) : List Char → Bool
  | [] => startsWithList needle []
  | hay@(_ :: rest) => startsWithList needle hay || containsList needle rest

/-- Python `needle in hay` on strings: contiguous substring test. -/
def strIn (needle hay : String) : Bool :=
  containsList needle.toList hay.toList

/-- Python `any(word in combined for word in words)`. -/
def anyWord (words : List String) (combined : String) : Bool :=
  words.any (fun w => strIn w combined)

/-- Python `str.lower()`, on the ASCII range (`Char.toLower` semantics),
written structurally over the character list so it evaluates in the kernel. -/
def strLower (s : String) : String :=
  String.mk (s.toList.map Char.toLower)

/-- The lowercase concatenation `f"{title} {tags} {group} {description}"`
built by every categorizer (a falsy/empty field lowers to `""` either way). -/
def mkCombined (title tags g description : String) : String :=
  strLower title ++ " " ++ strLower tags ++ " " ++ strLower g ++ " " ++ strLower description

/-- The apostrophe character, used in the keyword `writer's reference`. -/
def apos : String := String.singleton (Char.ofNat 39)

/-- The keyword `writer's reference` (apostrophe spelled out). -/
def writersRef : String := "writer" ++ apos ++ "s reference"

/-! ## estimate_book_width -/

/-- Python `estimate_book_width(pages)`: spine width in inches from the page count.
Python's `not pages` is true for `None` and for `0`, both already covered by
`pages <= 0` once `pages` is an int. -/
def estimate_book_width : Option Int → ℚ
  | none => 1
  | some pages =>
    if pages = 0 ∨ pages ≤ 0 then 1
    else if pages ≤ 100 then 1/2
    else if pages ≤ 200 then 3/4
    else if pages ≤ 300 then 1
    else if pages ≤ 500 then 5/4
    else if pages ≤ 750 then 3/2
    else 2

/-- Modelled from the spec, section 4.3: the width table as the spec words it
(absent or ≤ 0 → 1.0, ≤ 100 → 0.5, ≤ 200 → 0.75, ≤ 300 → 1.0,
≤ 500 → 1.25, ≤ 750 → 1.5, else 2.0), to be compared with the code's
`estimate_book_width`. -/
def width_spec_table : Option Int → ℚ
  | none => 1
  | some p =>
    if p ≤ 0 then 1
    else if p ≤ 100 then 1/2
    else if p ≤ 200 then 3/4
    else if p ≤ 300 then 1
    else if p ≤ 500 then 5/4
    else if p ≤ 750 then 3/2
    else 2

/-! ## categorize_book -/

/-- A categorizer: title, tags, group, description ↦ (shelf, row).
(The `item` argument of the Python categorizers is never consulted.) -/
def Categorizer : Type := String → String → String → String → ShelfId × Nat

/-- The rule list of `categorize_book` applied to the combined lowercase
text (first match wins). -/
def categorize_from (combined : String) : ShelfId × Nat :=
  if anyWord ["genki", "tobira", "integrated chinese", "kanji for international"] combined then
    (.office_a, 1)
  else if anyWord ["algorithms", "clean code", "programming language", "knuth",
      "art of computer"] combined then
    (.office_a, 2)
  else if anyWord ["physics", "chemistry"] combined && strIn "textbook" combined then
    (.office_a, 3)
  else if anyWord ["kant", "groundwork", "nietzsche", "republic", "analects"] combined then
    (.office_a, 4)
  else if anyWord [writersRef, "writing", "professional"] combined then
    (.office_a, 5)
  else if anyWord ["japanese", "chinese", "korean", "language", "dictionary",
      "grammar"] combined && !(strIn "cooking" combined) then
    (if strIn "japanese" combined || strIn "kanji" combined then (.dining, 1)
     else if strIn "chinese" combined then (.dining, 2)
     else (.dining, 3))
  else if anyWord ["history", "historical", "revolution", "war", "ancient",
      "medieval"] combined then
    (.hallway, 1)
  else if anyWord ["dover", "classics", "poetry", "shakespeare", "literature",
      "fiction", "novel"] combined then
    (.hallway, 2)
  else if anyWord ["mathematics", "math", "dover", "logic", "science", "reference"] combined then
    (.crate_v, 1)
  else if anyWord ["game", "gaming", "rpg", "d&d", "strategy", "chess"] combined then
    (.office_b, 4)
  else if anyWord ["philosophy", "political", "ethics", "tao"] combined then
    (.office_b, 1)
  else if anyWord ["textbook", "academic", "university"] combined then
    (.office_b, 2)
  else if anyWord ["uncle john", "essay", "anthology", "collection"] combined then
    (.office_b, 3)
  else if anyWord ["cooking", "cook", "food", "recipe", "kitchen", "culinary"] combined then
    (if anyWord ["asian", "japanese", "chinese", "sushi", "wok"] combined then (.dining, 1)
     else if anyWord ["bittman", "international", "global"] combined then (.dining, 2)
     else (.dining, 3))
  else
    (.crate_h, 1)

/-- The function `categorize_book`: the default rule list over the lowercase combined
text (first match wins). -/
def categorize_book : Categorizer := fun title tags g description =>
  categorize_from (mkCombined title tags g description)

/-- The rule list of `balanced_categorize_book` applied to the combined
lowercase text. -/
def balanced_from (combined : String) : ShelfId × Nat :=
  if anyWord ["genki i", "genki ii", "tobira", "clean code"] combined then
    (.office_a, 1)
  else if anyWord ["algorithms", "art of computer", "programming language"] combined then
    (.office_a, 2)
  else if anyWord ["physics", "chemistry"] combined && strIn "textbook" combined then
    (.office_a, 3)
  else if anyWord ["kant", "groundwork", "republic"] combined then
    (.office_a, 4)
  else if anyWord [writersRef, "writing"] combined then
    (.office_a, 5)
  else if anyWord ["programming", "computer", "software", "math"] combined then
    (.office_b, 1)
  else if anyWord ["philosophy", "political", "ethics"] combined then
    (.office_b, 2)
  else if anyWord ["reference", "textbook", "academic"] combined then
    (.office_b, 3)
  else if anyWord ["game", "gaming", "rpg", "chess", "strategy"] combined then
    (.office_b, 4)
  else if anyWord ["cooking", "cook", "food", "recipe", "kitchen"] combined then
    (.dining, 1)
  else if anyWord ["japanese", "kanji"] combined && !(strIn "cooking" combined) then
    (.dining, 2)
  else if anyWord ["chinese", "korean", "language"] combined && !(strIn "cooking" combined) then
    (.dining, 3)
  else if anyWord ["fiction", "novel", "poetry"] combined then
    (.hallway, 1)
  else if anyWord ["uncle john", "essay", "anthology"] combined then
    (.hallway, 2)
  else if anyWord ["history", "historical", "war", "revolution"] combined then
    (.crate_h, 1)
  else if anyWord ["dover", "classics", "literature"] combined && !(strIn "japanese" combined) then
    (.crate_v, 1)
  else
    (.office_b, 2)

/-- The function `balanced_categorize_book`: the categorizer the main flow actually uses
(via `iterative_balance`, which calls
`calculate_space_usage(items, balanced_categorize_book)`). -/
def balanced_categorize_book : Categorizer := fun title tags g description =>
  balanced_from (mkCombined title tags g description)

/-! ## Inventory records and calculate_space_usage -/

/-- One CSV row kept by `parse_csv_file` (an `InventoryRecord`).  The
`length` field holds the integer successfully parsed from the CSV `length`
column, or `none` when the column is empty, missing, or malformed —
`calculate_space_usage` substitutes `0` in all those cases. -/
structure Item where
  item_type : String
  title : String
  creators : String
  tags : String
  grp : String
  description : String
  length : Option Int
deriving DecidableEq, Repr

/-- The page count `calculate_space_usage` derives:
`int(item.get('length', 0) or 0)` with `0` on parse failure. -/
def itemPages (it : Item) : Int := it.length.getD 0

/-- The dict appended to `shelf_usage[shelf]['rows'][row]['items']`. -/
structure BookEntry where
  title : String
  author : String
  pages : Int
  width : ℚ
deriving DecidableEq, Repr

/-- One `shelf_usage[shelf]['rows'][row]` value. -/
structure RowData where
  width : ℚ
  items : List BookEntry
deriving DecidableEq, Repr

/-- One `shelf_usage[shelf]` value; `rows` is an association list keyed by
row number in insertion order. -/
structure ShelfUsage where
  rows : List (Nat × RowData)
  total_width : ℚ
  available_width : ℚ
  utilization : ℚ
deriving DecidableEq, Repr

/-- The whole `shelf_usage` dict, keyed by shelf in insertion order. -/
abbrev SpaceUsage : Type := List (ShelfId × ShelfUsage)

/-- Python dict comprehension over row numbers 1 to rows, each mapped to a zero-width empty row. -/
def initRows (n : Nat) : List (Nat × RowData) :=
  (List.range n).map (fun i => (i + 1, ⟨0, []⟩))

/-- The initial per-shelf accumulator built by the first loop of
`calculate_space_usage`. -/
def initShelfUsage (s : ShelfId) : ShelfUsage :=
  { rows := initRows (shelfRows s)
  , total_width := 0
  , available_width := ((shelfWidth s * shelfRows s : Nat) : ℚ)
  , utilization := 0 }

/-- The accumulator after the initialization loop over `SHELF_DIMENSIONS`. -/
def initUsage : SpaceUsage :=
  allShelves.map (fun s => (s, initShelfUsage s))

/-- Python `shelf_usage[shelf]['rows'][row]['width'] += width` together with the
`items.append(...)`, on one shelf's row dict. -/
def addBookToRows (rows : List (Nat × RowData)) (r : Nat) (e : BookEntry) :
    List (Nat × RowData) :=
  rows.map (fun p => if p.1 = r then (p.1, ⟨p.2.width + e.width, p.2.items ++ [e]⟩) else p)

/-- The two accumulation statements of `calculate_space_usage`, on the whole
`shelf_usage` dict. -/
def addBook (u : SpaceUsage) (loc : ShelfId × Nat) (e : BookEntry) : SpaceUsage :=
  u.map (fun p =>
    if p.1 = loc.1 then (p.1, { p.2 with rows := addBookToRows p.2.rows loc.2 e }) else p)

/-- One iteration of the item loop of `calculate_space_usage`: non-book
records are skipped, a book is categorized and accumulated. -/
def processItem (cat : Categorizer) (u : SpaceUsage) (it : Item) : SpaceUsage :=
  if it.item_type = "book" then
    let loc := cat it.title it.tags it.grp it.description
    let pages := itemPages it
    let width := estimate_book_width (some pages)
    addBook u loc ⟨it.title, it.creators, pages, width⟩
  else u

/-- The final loop of `calculate_space_usage`: recompute `total_width` as the
sum of the row widths and `utilization` as `total / available * 100`. -/
def finalizeShelf (su : ShelfUsage) : ShelfUsage :=
  let t := (su.rows.map (fun p => p.2.width)).sum
  { su with total_width := t, utilization := t / su.available_width * 100 }

/-- Python `calculate_space_usage(items, categorizer_func)`.  The Python default for
`categorizer_func` is `categorize_book`; the main flow passes
`balanced_categorize_book`. -/
def calculate_space_usage (items : List Item) (categorizer_func : Categorizer) : SpaceUsage :=
  (items.foldl (processItem categorizer_func) initUsage).map (fun p => (p.1, finalizeShelf p.2))

/-- The `item['item_type'] == 'book'` guard of the item loop. -/
def isBook (it : Item) : Bool := it.item_type == "book"

/-- Sum of the `width` fields over one shelf's row dict. -/
def rowsWidthSum (rows : List (Nat × RowData)) : ℚ :=
  (rows.map (fun p => p.2.width)).sum

/-- Sum of the accumulated per-row widths over the whole `shelf_usage`
dict: the quantity the conservation property talks about. -/
def usageWidthSum (u : SpaceUsage) : ℚ :=
  (u.map (fun p => rowsWidthSum p.2.rows)).sum

/-- How many row entries of one shelf's row dict carry the key `r`. -/
def rowKeyCount (rows : List (Nat × RowData)) (r : Nat) : Nat :=
  rows.countP (fun p => p.1 == r)

/-- How many (shelf, row) slots of the accumulator carry the key `(s, r)`. -/
def locCount (u : SpaceUsage) (s : ShelfId) (r : Nat) : Nat :=
  (u.map (fun p => if p.1 = s then rowKeyCount p.2.rows r else 0)).sum

/-- Sum of the estimated widths of the book records of the input, with the
page count derived exactly as `calculate_space_usage` derives it. -/
def bookWidthSum (items : List Item) : ℚ :=
  ((items.filter isBook).map (fun it => estimate_book_width (some (itemPages it)))).sum

/-- A (shelf, row) destination within the configured range: row numbers
`1 .. SHELF_DIMENSIONS[s]['rows']`. -/
def LocOk (loc : ShelfId × Nat) : Prop :=
  1 ≤ loc.2 ∧ loc.2 ≤ shelfRows loc.1

/-- The key skeleton of the accumulator: shelf keys in order, each with its
row keys in order and its `available_width`. -/
def usageShape (u : SpaceUsage) : List (ShelfId × List Nat × ℚ) :=
  u.map (fun p => (p.1, p.2.rows.map Prod.fst, p.2.available_width))

/-! ## parse_csv_file and the main-loop concatenation -/

/-- One execution trace of reading a CSV file: the rows the `csv.DictReader`
loop yielded (already restricted to dict rows; `rows` lists them in order)
followed, when `err` is true, by a raised exception — an open failure is the
trace with `rows = []` and `err = true`. -/
structure CsvFile where
  rows : List Item
  err : Bool
deriving DecidableEq, Repr

/-- The recognized `item_type` filter of `parse_csv_file`. -/
def recognizedKind (it : Item) : Bool :=
  it.item_type = "book" || it.item_type = "videogame" || it.item_type = "music"

/-- Python `parse_csv_file(filepath)`: appends every recognized row yielded before
the (possible) exception; the `except` clause logs and falls through to
`return items`, so the accumulated list is returned whether or not an error
was raised. -/
def parse_csv_file (f : CsvFile) : List Item :=
  f.rows.filter recognizedKind

/-- The per-file loop of `main`: `all_items.extend(parse_csv_file(f))` over
the discovered files. -/
def ingest_all (files : List CsvFile) : List Item :=
  files.foldl (fun acc f => acc ++ parse_csv_file f) []

/-! ## Utilization banner bands (generate_html) -/

/-- The three CSS classes of the utilization banner. -/
inductive Band
  | over | near | good
deriving DecidableEq, Repr

/-- The band chosen by `generate_html` from `utilization`:
`> 90` over capacity, `elif > 75` near capacity, else good capacity. -/
def utilization_band (u : ℚ) : Band :=
  if u > 90 then .over
  else if u > 75 then .near
  else .good

/-! ## Screenshot pipeline (selenium-screenshot.py) -/

/-- The environment a run of `capture_screenshot` faces: whether each
externally fallible step would succeed if attempted — driver construction,
`driver.get`, the readiness `WebDriverWait` (false = `TimeoutException`),
the render sleep, and `save_screenshot`. -/
structure CaptureEnv where
  driver_ok : Bool
  nav_ok : Bool
  ready_ok : Bool
  render_ok : Bool
  save_ok : Bool
deriving DecidableEq, Repr

/-- What a call of `capture_screenshot` did: the boolean it returned,
whether a driver was constructed, and whether `driver.quit()` ran in the
`finally` block. -/
structure CaptureOutcome where
  success : Bool
  created : Bool
  released : Bool
deriving DecidableEq, Repr

/-- Python `capture_screenshot(url, output_path, wait_seconds, description)`: the
`try` body runs the steps in order, any exception is caught and `False`
returned, and `finally` quits the driver whenever one was constructed. -/
def capture_screenshot (env : CaptureEnv) : CaptureOutcome :=
  if env.driver_ok then
    { success := env.nav_ok && env.ready_ok && env.render_ok && env.save_ok
    , created := true
    , released := true }
  else
    { success := false, created := false, released := false }

/-- Navigation succeeded: the step was reached and `driver.get` returned. -/
def nav_succeeded (env : CaptureEnv) : Bool := env.driver_ok && env.nav_ok

/-- The readiness wait succeeded (reached, and no `TimeoutException`). -/
def ready_succeeded (env : CaptureEnv) : Bool := nav_succeeded env && env.ready_ok

/-- The render sleep succeeded (reached and returned). -/
def render_succeeded (env : CaptureEnv) : Bool := ready_succeeded env && env.render_ok

/-- The image write succeeded (reached, and `save_screenshot` returned). -/
def write_succeeded (env : CaptureEnv) : Bool := render_succeeded env && env.save_ok

/-- The `main` of the screenshot script: `sys.exit(0 if success else 1)`. -/
def screenshot_exit (env : CaptureEnv) : Nat :=
  if (capture_screenshot env).success then 0 else 1

/-! ## Concrete records used in the end-to-end statements -/

/-- The spec's first end-to-end example: a 250-page book titled `Genki I`. -/
def genkiItem : Item :=
  ⟨"book", "Genki I", "Banno", "", "", "", some 250⟩

/-- The spec's second end-to-end example: `Unknown Mystery Novel`, with
empty tags, group and description. -/
def novelItem : Item :=
  ⟨"book", "Unknown Mystery Novel", "", "", "", "", none⟩

/-- A recognized book row, used as a concrete CSV record. -/
def sampleBook : Item :=
  ⟨"book", "A Book", "Someone", "", "", "", some 120⟩

/-- A videogame record (recognized by the ingestor, skipped by the
space calculator). -/
def sampleGame : Item :=
  ⟨"videogame", "A Game", "Studio", "", "", "", none⟩

/-- The spec's banner example: a hallway-shaped accumulator whose two rows
hold 25" and 15" of books against the 16 × 2 = 32" capacity. -/
def hallwayExample : ShelfUsage :=
  { rows := [(1, ⟨25, []⟩), (2, ⟨15, []⟩)]
  , total_width := 0
  , available_width := 32
  , utilization := 0 }

/-! # Theorems -/

/-! ## C1: the width table -/

/-- C1: for every page count (an optional integer) the estimated book width
equals the spec's section 4.3 table: absent or ≤ 0 → 1.0, ≤ 100 → 0.5,
≤ 200 → 0.75, ≤ 300 → 1.0, ≤ 500 → 1.25, ≤ 750 → 1.5, else 2.0, every
boundary inclusive on the lower band. -/
theorem estimate_book_width_matches_spec_table (p : Option Int) :
    estimate_book_width p = width_spec_table p := by
  cases p with
  | none => rfl
  | some v =>
    simp only [estimate_book_width, width_spec_table]
    by_cases hv : v ≤ 0
    · rw [if_pos (Or.inr hv), if_pos hv]
    · rw [if_neg (by omega), if_neg hv]

/-! ## C3: monotonicity -/

/-- C3 as stated is false: a page count of 0 (the absent/unknown default)
gets width 1.0 while the larger page count 50 gets width 0.5, and the
absent page count behaves the same way. -/
theorem estimate_book_width_not_monotone :
    (0 : ℤ) ≤ 50 ∧
      ¬ estimate_book_width (some 0) ≤ estimate_book_width (some 50) ∧
      ¬ estimate_book_width none ≤ estimate_book_width (some 50) := by
  refine ⟨by decide, by norm_num [estimate_book_width], by norm_num [estimate_book_width]⟩

/-- C3 amended: the estimated width is non-decreasing on positive page
counts; the absent/≤ 0 default of 1.0 sits above the two lowest bands, so
monotonicity holds only once the default case is excluded. -/
theorem estimate_book_width_monotone_on_positive (p q : Int) (hp : 0 < p) (hpq : p ≤ q) :
    estimate_book_width (some p) ≤ estimate_book_width (some q) := by
  have hz : ∀ x : ℤ, (x = 0 ∨ x ≤ 0) ↔ x ≤ 0 := fun x => by omega
  simp only [estimate_book_width, hz]
  split_ifs <;> first | (exfalso; omega) | norm_num

/-- Witness for the amended C3 at pages 150 ≤ 400. -/
theorem estimate_book_width_monotone_on_positive_witness :
    (0 : ℤ) < 150 ∧ (150 : ℤ) ≤ 400 ∧
      estimate_book_width (some 150) ≤ estimate_book_width (some 400) :=
  ⟨by decide, by decide,
    estimate_book_width_monotone_on_positive 150 400 (by decide) (by decide)⟩

/-! ## C4: the Genki I example -/

/-- C4 as stated is false: the classifier used in the main flow does send
`Genki I` to office_a row 1, but the estimated width of a 250-page book is
1.0 inch (the 201–300 band), not 0.75. -/
theorem genki_width_not_three_quarters :
    balanced_categorize_book "Genki I" "" "" "" = (ShelfId.office_a, 1) ∧
      estimate_book_width (some 250) ≠ 3/4 := by
  refine ⟨by decide, by norm_num [estimate_book_width]⟩

/-- C4 amended: a book record titled `Genki I` with 250 pages is classified
by the main-flow classifier (`balanced_categorize_book`) — and also by the
default `categorize_book` — to office_a row 1, and its estimated width is
1.0 inch. -/
theorem genki_classified_office_a_row1 :
    balanced_categorize_book genkiItem.title genkiItem.tags genkiItem.grp
        genkiItem.description = (ShelfId.office_a, 1) ∧
      categorize_book genkiItem.title genkiItem.tags genkiItem.grp
        genkiItem.description = (ShelfId.office_a, 1) ∧
      estimate_book_width (some (itemPages genkiItem)) = 1 := by
  refine ⟨by decide, by decide, by norm_num [genkiItem, itemPages, estimate_book_width]⟩

/-! ## C5: the Unknown Mystery Novel example -/

/-- C5 as stated is false: the classifier used in the main flow
(`balanced_categorize_book`) does not send `Unknown Mystery Novel` to
hallway row 2. -/
theorem novel_not_hallway_row2 :
    balanced_categorize_book "Unknown Mystery Novel" "" "" "" ≠ (ShelfId.hallway, 2) := by
  decide

/-- C5 amended: `Unknown Mystery Novel` (empty tags, group, description)
contains `novel` and matches no earlier rule, and the main-flow classifier
`balanced_categorize_book` files it under hallway row 1 (its
fiction/novel/poetry rule); the default `categorize_book`, whose
literature rule indeed targets hallway row 2, is not the classifier the
main flow uses. -/
theorem novel_classified_hallway_row1 :
    balanced_categorize_book "Unknown Mystery Novel" "" "" "" = (ShelfId.hallway, 1) ∧
      categorize_book "Unknown Mystery Novel" "" "" "" = (ShelfId.hallway, 2) ∧
      strIn "novel" (mkCombined "Unknown Mystery Novel" "" "" "") = true := by
  refine ⟨by decide, by decide, by decide⟩

/-! ## C6: utilization banner bands -/

/-- C6: the banner band is a three-way classification of the computed
utilization — over capacity iff u > 90, near capacity iff 75 < u ≤ 90,
good capacity iff u ≤ 75 — and a shelf with 32" capacity holding 40" of
books is reported at 125.0% utilization in the over-capacity band. -/
theorem utilization_band_classification (u : ℚ) :
    (utilization_band u = Band.over ↔ u > 90) ∧
      (utilization_band u = Band.near ↔ 75 < u ∧ u ≤ 90) ∧
      (utilization_band u = Band.good ↔ u ≤ 75) ∧
      rowsWidthSum hallwayExample.rows = 40 ∧
      hallwayExample.available_width = 32 ∧
      (finalizeShelf hallwayExample).utilization = 125 ∧
      utilization_band (finalizeShelf hallwayExample).utilization = Band.over := by
  have hutil : (finalizeShelf hallwayExample).utilization = 125 := by
    norm_num [finalizeShelf, hallwayExample]
  refine ⟨?_, ?_, ?_, by norm_num [rowsWidthSum, hallwayExample], rfl, hutil, ?_⟩
  · simp only [utilization_band]
    split_ifs with h1 h2 <;> simp_all
  · simp only [utilization_band]
    split_ifs with h1 h2 <;> simp_all
  · simp only [utilization_band]
    split_ifs with h1 h2 <;> simp_all
    linarith
  · rw [hutil]
    norm_num [utilization_band]

/-! ## C7: CSV error handling -/

/-- The no-abort half of C7: the main loop concatenates every discovered
file's parsed records, so a failing file never suppresses the others. -/
theorem ingest_all_eq_join (files : List CsvFile) :
    ingest_all files = (files.map parse_csv_file).flatten := by
  have h : ∀ (fs : List CsvFile) (acc : List Item),
      fs.foldl (fun a f => a ++ parse_csv_file f) acc = acc ++ (fs.map parse_csv_file).flatten := by
    intro fs
    induction fs with
    | nil => intro acc; simp
    | cons f rest ih =>
      intro acc
      simp [ih, List.append_assoc]
  simpa using h files []

/-- C7 as stated is false: an error raised after some rows were already
read (for instance a malformed quote or encoding error mid-file) leaves
the rows accumulated so far in the returned list, so a file whose reading
raises an error can return a nonzero number of records. -/
theorem parse_csv_file_error_keeps_rows :
    (CsvFile.mk [sampleBook] true).err = true ∧
      parse_csv_file (CsvFile.mk [sampleBook] true) ≠ [] := by
  refine ⟨rfl, by decide⟩

/-- C7 amended: a file whose reading raises an error returns exactly the
recognized records read before the error — zero records when the error
strikes before any row, as on an open failure — and the error never
aborts the other files: the concatenated result is the concatenation of
every file's parsed records. -/
theorem parse_csv_file_error_amended (files : List CsvFile) (f : CsvFile)
    (herr : f.err = true) :
    parse_csv_file f = f.rows.filter recognizedKind ∧
      (f.rows = [] → parse_csv_file f = []) ∧
      ingest_all files = (files.map parse_csv_file).flatten := by
  refine ⟨rfl, ?_, ingest_all_eq_join files⟩
  intro h
  simp [parse_csv_file, h]

/-- Witness for the amended C7: an open-failure file among two good ones. -/
theorem parse_csv_file_error_amended_witness :
    (CsvFile.mk [] true).err = true ∧
      (parse_csv_file (CsvFile.mk [] true) = ([] : List Item).filter recognizedKind ∧
        (([] : List Item) = [] → parse_csv_file (CsvFile.mk [] true) = []) ∧
        ingest_all [CsvFile.mk [sampleBook] false, CsvFile.mk [] true, CsvFile.mk [sampleGame] false] =
          ([CsvFile.mk [sampleBook] false, CsvFile.mk [] true,
            CsvFile.mk [sampleGame] false].map parse_csv_file).flatten) :=
  ⟨rfl, parse_csv_file_error_amended _ _ rfl⟩

/-! ## C8: screenshot capture -/

/-- C8: `capture_screenshot` returns a boolean that is true exactly when
navigation, the readiness wait, the render wait and the image write all
succeed (every raised exception is converted to `False`, none propagates);
the driver is released exactly when one was created; the process exit code
is 0 exactly on success and 1 on any failure, and in particular a
readiness timeout exits with code 1. -/
theorem capture_screenshot_boolean_and_exit (env : CaptureEnv) :
    ((capture_screenshot env).success = true ↔
        (nav_succeeded env = true ∧ ready_succeeded env = true ∧
          render_succeeded env = true ∧ write_succeeded env = true)) ∧
      (screenshot_exit env = 0 ↔ (capture_screenshot env).success = true) ∧
      (screenshot_exit env = 1 ↔ (capture_screenshot env).success = false) ∧
      (capture_screenshot env).released = (capture_screenshot env).created ∧
      screenshot_exit (CaptureEnv.mk true true false true true) = 1 := by
  obtain ⟨d, n, r, re, s⟩ := env
  cases d <;> cases n <;> cases r <;> cases re <;> cases s <;> decide

/-! ## Accumulator lemmas for C2, C9, C10 -/

/-- Adding a book to a row dict leaves the row keys unchanged. -/
theorem addBookToRows_map_fst (rows : List (Nat × RowData)) (r : Nat) (e : BookEntry) :
    (addBookToRows rows r e).map Prod.fst = rows.map Prod.fst := by
  induction rows with
  | nil => rfl
  | cons p ps ih =>
    simp only [addBookToRows, List.map_cons] at *
    by_cases h : p.1 = r <;> simp [h, ih]

/-- The row-key count only looks at the keys. -/
theorem rowKeyCount_addBookToRows (rows : List (Nat × RowData)) (r0 r : Nat) (e : BookEntry) :
    rowKeyCount (addBookToRows rows r0 e) r = rowKeyCount rows r := by
  induction rows with
  | nil => rfl
  | cons p ps ih =>
    simp only [addBookToRows, rowKeyCount, List.map_cons, List.countP_cons] at *
    by_cases h : p.1 = r0 <;> simp [h, ih]

/-- Adding a book to one row adds its width to the row-width sum once per
occurrence of the row key. -/
theorem rowsWidthSum_addBookToRows (rows : List (Nat × RowData)) (r : Nat) (e : BookEntry) :
    rowsWidthSum (addBookToRows rows r e) =
      rowsWidthSum rows + (rowKeyCount rows r : ℚ) * e.width := by
  induction rows with
  | nil => simp [rowsWidthSum, addBookToRows, rowKeyCount]
  | cons p ps ih =>
    simp only [addBookToRows, rowsWidthSum, rowKeyCount, List.map_cons, List.sum_cons,
      List.countP_cons] at *
    by_cases h : p.1 = r
    · simp only [h, if_pos rfl, beq_self_eq_true, if_true]
      rw [ih]
      push_cast
      ring
    · have hb : (p.1 == r) = false := by simp [h]
      simp only [if_neg h, hb, if_false]
      rw [ih]
      push_cast
      ring

/-- One step of `addBook`. -/
theorem addBook_cons (p : ShelfId × ShelfUsage) (ps : SpaceUsage) (loc : ShelfId × Nat)
    (e : BookEntry) :
    addBook (p :: ps) loc e =
      (if p.1 = loc.1 then (p.1, { p.2 with rows := addBookToRows p.2.rows loc.2 e }) else p)
        :: addBook ps loc e := rfl

/-- One step of `usageWidthSum`. -/
theorem usageWidthSum_cons (p : ShelfId × ShelfUsage) (ps : SpaceUsage) :
    usageWidthSum (p :: ps) = rowsWidthSum p.2.rows + usageWidthSum ps := rfl

/-- One step of `locCount`. -/
theorem locCount_cons (p : ShelfId × ShelfUsage) (ps : SpaceUsage) (s : ShelfId) (r : Nat) :
    locCount (p :: ps) s r =
      (if p.1 = s then rowKeyCount p.2.rows r else 0) + locCount ps s r := rfl

/-- Adding via `addBook` adds the width once per matching (shelf, row) slot. -/
theorem usageWidthSum_addBook (u : SpaceUsage) (loc : ShelfId × Nat) (e : BookEntry) :
    usageWidthSum (addBook u loc e) =
      usageWidthSum u + (locCount u loc.1 loc.2 : ℚ) * e.width := by
  induction u with
  | nil => simp [usageWidthSum, addBook, locCount]
  | cons p ps ih =>
    rw [addBook_cons, usageWidthSum_cons, usageWidthSum_cons, locCount_cons, ih]
    by_cases h : p.1 = loc.1
    · rw [if_pos h, if_pos h]
      dsimp only
      rw [rowsWidthSum_addBookToRows]
      push_cast
      ring
    · rw [if_neg h, if_neg h]
      push_cast
      ring

/-- Adding via `addBook` leaves every (shelf, row) key count unchanged. -/
theorem locCount_addBook (u : SpaceUsage) (loc : ShelfId × Nat) (e : BookEntry)
    (s : ShelfId) (r : Nat) :
    locCount (addBook u loc e) s r = locCount u s r := by
  induction u with
  | nil => rfl
  | cons p ps ih =>
    rw [addBook_cons, locCount_cons, locCount_cons, ih]
    by_cases h : p.1 = loc.1
    · rw [if_pos h]
      dsimp only
      rw [rowKeyCount_addBookToRows]
    · rw [if_neg h]

/-- Processing one item leaves every (shelf, row) key count unchanged. -/
theorem locCount_processItem (cat : Categorizer) (u : SpaceUsage) (it : Item)
    (s : ShelfId) (r : Nat) :
    locCount (processItem cat u it) s r = locCount u s r := by
  unfold processItem
  by_cases h : it.item_type = "book"
  · rw [if_pos h]
    exact locCount_addBook u _ _ s r
  · rw [if_neg h]

/-- The sum `bookWidthSum` unfolds one item at a time. -/
theorem bookWidthSum_cons (it : Item) (rest : List Item) :
    bookWidthSum (it :: rest) =
      (if isBook it then estimate_book_width (some (itemPages it)) else 0) + bookWidthSum rest := by
  by_cases h : isBook it
  · rw [if_pos h]
    unfold bookWidthSum
    rw [List.filter_cons, if_pos h, List.map_cons, List.sum_cons]
  · rw [if_neg h]
    unfold bookWidthSum
    rw [List.filter_cons, if_neg (by simp [h]), zero_add]

/-- Validity `LocOk` passes through a conditional. -/
theorem LocOk_ite (b : Prop) [Decidable b] (x y : ShelfId × Nat)
    (hx : LocOk x) (hy : LocOk y) : LocOk (if b then x else y) := by
  split_ifs <;> assumption

/-- The `categorize_book` rules only ever name configured rows. -/
theorem categorize_from_LocOk (c : String) : LocOk (categorize_from c) := by
  unfold categorize_from
  repeat' apply LocOk_ite
  all_goals exact ⟨by decide, by decide⟩

/-- The `balanced_categorize_book` rules only ever name configured rows. -/
theorem balanced_from_LocOk (c : String) : LocOk (balanced_from c) := by
  unfold balanced_from
  repeat' apply LocOk_ite
  all_goals exact ⟨by decide, by decide⟩

/-- Processing one item adds exactly its width (books) or nothing
(other kinds), provided every configured (shelf, row) occurs once. -/
theorem usageWidthSum_processItem (cat : Categorizer)
    (hcat : ∀ t tg g d, LocOk (cat t tg g d)) (u : SpaceUsage)
    (hu : ∀ s r, 1 ≤ r → r ≤ shelfRows s → locCount u s r = 1) (it : Item) :
    usageWidthSum (processItem cat u it) =
      usageWidthSum u + (if isBook it then estimate_book_width (some (itemPages it)) else 0) := by
  by_cases h : it.item_type = "book"
  · have hb : isBook it = true := by simp [isBook, h]
    obtain ⟨h1, h2⟩ := hcat it.title it.tags it.grp it.description
    simp only [processItem, if_pos h, hb, if_true]
    rw [usageWidthSum_addBook, hu _ _ h1 h2]
    push_cast
    ring
  · have hb : isBook it = false := by simp [isBook, h]
    simp [processItem, h, hb]

/-- The item loop accumulates exactly the book widths. -/
theorem usageWidthSum_foldl (cat : Categorizer)
    (hcat : ∀ t tg g d, LocOk (cat t tg g d)) (items : List Item) :
    ∀ u : SpaceUsage, (∀ s r, 1 ≤ r → r ≤ shelfRows s → locCount u s r = 1) →
      usageWidthSum (items.foldl (processItem cat) u) = usageWidthSum u + bookWidthSum items := by
  induction items with
  | nil =>
    intro u hu
    simp [bookWidthSum]
  | cons it rest ih =>
    intro u hu
    rw [List.foldl_cons,
      ih (processItem cat u it)
        (fun s r hr1 hr2 => by rw [locCount_processItem]; exact hu s r hr1 hr2),
      usageWidthSum_processItem cat hcat u hu it, bookWidthSum_cons]
    ring

/-- Every configured (shelf, row) slot appears exactly once in the freshly
initialized accumulator. -/
theorem locCount_initUsage (s : ShelfId) (r : Nat) (h1 : 1 ≤ r) (h2 : r ≤ shelfRows s) :
    locCount initUsage s r = 1 := by
  cases s <;> simp only [shelfRows] at h2 <;> interval_cases r <;> decide

/-- The initialized accumulator carries no width. -/
theorem rowsWidthSum_initRows (n : Nat) : rowsWidthSum (initRows n) = 0 := by
  unfold rowsWidthSum initRows
  rw [List.map_map]
  induction n with
  | zero => rfl
  | succ k ih => rw [List.range_succ, List.map_append, List.sum_append, ih]; simp

/-- The freshly initialized accumulator sums to zero width. -/
theorem usageWidthSum_initUsage : usageWidthSum initUsage = 0 := by
  unfold usageWidthSum initUsage
  rw [List.map_map]
  have h : ∀ s ∈ allShelves,
      ((fun p : ShelfId × ShelfUsage => rowsWidthSum p.2.rows) ∘
        (fun s => (s, initShelfUsage s))) s = 0 := by
    intro s _
    simpa [initShelfUsage] using rowsWidthSum_initRows (shelfRows s)
  rw [List.map_congr_left h]
  simp

/-- Finalizing (recomputing totals and utilization) does not touch rows. -/
theorem usageWidthSum_finalize (u : SpaceUsage) :
    usageWidthSum (u.map (fun p => (p.1, finalizeShelf p.2))) = usageWidthSum u := by
  unfold usageWidthSum
  rw [List.map_map]
  rfl

/-! ## C2: width conservation -/

/-- C2: for every list of input records, the sum over all shelves and rows
of the accumulated per-row widths produced by `calculate_space_usage`
equals the sum of the estimated widths of the classified book records —
no book is lost and none is counted in two (shelf, row) slots.  Stated for
the default classifier `categorize_book` and for the main flow's
`balanced_categorize_book`. -/
theorem calculate_space_usage_conserves_width (items : List Item) :
    usageWidthSum (calculate_space_usage items categorize_book) = bookWidthSum items ∧
      usageWidthSum (calculate_space_usage items balanced_categorize_book) =
        bookWidthSum items := by
  constructor
  · unfold calculate_space_usage
    rw [usageWidthSum_finalize,
      usageWidthSum_foldl categorize_book (fun t tg g d => categorize_from_LocOk _)
        items initUsage locCount_initUsage,
      usageWidthSum_initUsage, zero_add]
  · unfold calculate_space_usage
    rw [usageWidthSum_finalize,
      usageWidthSum_foldl balanced_categorize_book (fun t tg g d => balanced_from_LocOk _)
        items initUsage locCount_initUsage,
      usageWidthSum_initUsage, zero_add]

/-! ## C9: initialization and division safety -/

/-- One step of `usageShape`. -/
theorem usageShape_cons (p : ShelfId × ShelfUsage) (ps : SpaceUsage) :
    usageShape (p :: ps) = (p.1, p.2.rows.map Prod.fst, p.2.available_width) :: usageShape ps :=
  rfl

/-- Adding via `addBook` never changes the key skeleton. -/
theorem usageShape_addBook (u : SpaceUsage) (loc : ShelfId × Nat) (e : BookEntry) :
    usageShape (addBook u loc e) = usageShape u := by
  induction u with
  | nil => rfl
  | cons p ps ih =>
    rw [addBook_cons, usageShape_cons, usageShape_cons, ih]
    by_cases h : p.1 = loc.1
    · rw [if_pos h]
      dsimp only
      rw [addBookToRows_map_fst]
    · rw [if_neg h]

/-- Processing one item never changes the key skeleton. -/
theorem usageShape_processItem (cat : Categorizer) (u : SpaceUsage) (it : Item) :
    usageShape (processItem cat u it) = usageShape u := by
  unfold processItem
  by_cases h : it.item_type = "book"
  · rw [if_pos h]
    exact usageShape_addBook u _ _
  · rw [if_neg h]

/-- The item loop never changes the key skeleton. -/
theorem usageShape_foldl (cat : Categorizer) (items : List Item) :
    ∀ u : SpaceUsage, usageShape (items.foldl (processItem cat) u) = usageShape u := by
  induction items with
  | nil => intro u; rfl
  | cons it rest ih =>
    intro u
    rw [List.foldl_cons, ih, usageShape_processItem]

/-- Finalizing never changes the key skeleton. -/
theorem usageShape_finalize (u : SpaceUsage) :
    usageShape (u.map (fun p => (p.1, finalizeShelf p.2))) = usageShape u := by
  unfold usageShape
  rw [List.map_map]
  rfl

/-- The whole calculation keeps the freshly initialized key skeleton. -/
theorem usageShape_calculate_space_usage (items : List Item) (cat : Categorizer) :
    usageShape (calculate_space_usage items cat) = usageShape initUsage := by
  unfold calculate_space_usage
  rw [usageShape_finalize, usageShape_foldl]

/-- The key projection of the shape is the key list. -/
theorem usageShape_keys (u : SpaceUsage) :
    (usageShape u).map (fun q => q.1) = u.map Prod.fst := by
  unfold usageShape
  rw [List.map_map]
  rfl

/-- The freshly initialized skeleton, fully evaluated. -/
theorem usageShape_initUsage :
    usageShape initUsage =
      [(ShelfId.office_a, [1, 2, 3, 4, 5], ((160 : Nat) : ℚ)),
       (ShelfId.office_b, [1, 2, 3, 4], ((128 : Nat) : ℚ)),
       (ShelfId.dining, [1, 2, 3], ((72 : Nat) : ℚ)),
       (ShelfId.hallway, [1, 2], ((32 : Nat) : ℚ)),
       (ShelfId.crate_h, [1], ((32 : Nat) : ℚ)),
       (ShelfId.crate_v, [1], ((12 : Nat) : ℚ))] := rfl

/-- C9: whatever the input records and the categorizer, the result of
`calculate_space_usage` has an entry for each of the six configured
shelves, each with rows numbered 1 up to its configured row count, and
each shelf's available width is the positive constant
`width × rows` — so the utilization division is always well defined. -/
theorem calculate_space_usage_initializes_all_shelves (items : List Item) (cat : Categorizer) :
    ((calculate_space_usage items cat).map Prod.fst = allShelves) ∧
      ∀ p ∈ calculate_space_usage items cat,
        p.2.rows.map Prod.fst = (List.range (shelfRows p.1)).map (fun i => i + 1) ∧
        p.2.available_width = ((shelfWidth p.1 * shelfRows p.1 : Nat) : ℚ) ∧
        0 < p.2.available_width := by
  have hshape := usageShape_calculate_space_usage items cat
  constructor
  · have h1 := congrArg (List.map (fun q : ShelfId × List Nat × ℚ => q.1)) hshape
    rw [usageShape_keys, usageShape_keys] at h1
    rw [h1]
    decide
  · intro p hp
    have hmem : (p.1, p.2.rows.map Prod.fst, p.2.available_width) ∈ usageShape initUsage := by
      rw [← hshape]
      exact List.mem_map_of_mem _ hp
    rw [usageShape_initUsage] at hmem
    simp only [List.mem_cons, List.not_mem_nil, or_false] at hmem
    rcases hmem with h | h | h | h | h | h <;>
      (simp only [Prod.mk.injEq] at h
       obtain ⟨h1, h2, h3⟩ := h
       exact ⟨by rw [h2, h1]; decide, by rw [h3, h1]; norm_num [shelfWidth, shelfRows],
         by rw [h3]; norm_num⟩)

/-- Witness for C9 at the empty record list: applies the theorem and reads
off the six shelf keys. -/
theorem calculate_space_usage_initializes_witness :
    (calculate_space_usage [] categorize_book).map Prod.fst = allShelves :=
  (calculate_space_usage_initializes_all_shelves [] categorize_book).1

/-! ## C10: non-book records are inert -/

/-- A non-book record leaves the accumulator untouched. -/
theorem processItem_non_book (cat : Categorizer) (u : SpaceUsage) (it : Item)
    (h : ¬ it.item_type = "book") : processItem cat u it = u := by
  unfold processItem
  rw [if_neg h]

/-- The item loop only sees the book records. -/
theorem foldl_processItem_filter (cat : Categorizer) (items : List Item) :
    ∀ u : SpaceUsage,
      items.foldl (processItem cat) u = (items.filter isBook).foldl (processItem cat) u := by
  induction items with
  | nil => intro u; rfl
  | cons it rest ih =>
    intro u
    by_cases h : it.item_type = "book"
    · have hb : isBook it = true := by simp [isBook, h]
      rw [List.foldl_cons, List.filter_cons, if_pos hb, List.foldl_cons, ih]
    · have hb : isBook it = false := by simp [isBook, h]
      rw [List.foldl_cons, List.filter_cons, hb, if_neg (by decide), processItem_non_book cat u it h,
        ih]

/-- C10: videogame and music records are never classified and contribute
nothing: `calculate_space_usage` returns the same per-row widths, item
lists, totals, and utilization percentages as on the book-only sublist. -/
theorem calculate_space_usage_ignores_non_books (items : List Item) (cat : Categorizer) :
    calculate_space_usage items cat = calculate_space_usage (items.filter isBook) cat := by
  unfold calculate_space_usage
  rw [foldl_processItem_filter]
